import Mathlib

/-!
Shallow embedding of the Pico W TLS client (TLS_client/tls_common.c,
TLS_client/src/client.h) and of the peer server helpers (url_decode) of the
mytechnotalent/IoT repository, together with the fixed HTTP request literal
shared by the client sources.

The external lwip/altcp layer is modelled by oracles: each operation that
calls into lwip receives the integer result that the corresponding lwip call
would return (altcp_close, altcp_connect, altcp_write, dns_gethostbyname,
altcp_tls_new).  Callback delivery by the event loop is modelled as a list of
signals consumed by an explicit loop function.  A C execution that commits
undefined behaviour (a null-pointer dereference) is modelled as the value
none of an Option-typed result.
-/

/-- lwip err.h: ERR_OK. -/
def ERR_OK : Int := 0

/-- lwip err.h: ERR_INPROGRESS. -/
def ERR_INPROGRESS : Int := -5

/-- lwip err.h: ERR_ABRT. -/
def ERR_ABRT : Int := -13

/-- lwip err.h: ERR_CONN, used below only as a sample nonzero error code. -/
def ERR_CONN : Int := -11

/-- pico-sdk pico/error.h: PICO_ERROR_TIMEOUT. -/
def PICO_ERROR_TIMEOUT : Int := -1

/-- pico-sdk pico/error.h: PICO_ERROR_GENERIC. -/
def PICO_ERROR_GENERIC : Int := -2

/-- The observable registration state of one altcp protocol control block:
the argument slot set by altcp_arg and the four callback slots set by
altcp_poll (with its interval), altcp_recv and altcp_err. -/
structure Pcb where
  arg_set : Bool
  poll_cb : Bool
  poll_interval : Int
  recv_cb : Bool
  err_cb : Bool
deriving DecidableEq, Repr

/-- TLS_CLIENT_T from tls_common.c: the secure connection handle.  The pcb
pointer is an Option: none models NULL. -/
structure TLS_CLIENT_T where
  pcb : Option Pcb
  complete : Bool
  error : Int
  http_request : String
  timeout : Int
deriving DecidableEq, Repr

/-- tls_client_close from tls_common.c.  closeRes is the oracle for the
result of the altcp_close call.  Sets complete unconditionally; if the pcb
is non-null it unregisters the argument and the poll, recv and err
callbacks, calls altcp_close, on failure aborts the pcb and turns the
result into ERR_ABRT, and nulls the pcb last.  Returns the updated handle
and the err_t result. -/
def tls_client_close (closeRes : Int) (st : TLS_CLIENT_T) : TLS_CLIENT_T × Int :=
  let st1 := { st with complete := true }
  match st1.pcb with
  | none => (st1, ERR_OK)
  | some p =>
    let _unreg := { p with arg_set := false, poll_cb := false,
                           poll_interval := 0, recv_cb := false, err_cb := false }
    if closeRes ≠ ERR_OK then
      ({ st1 with pcb := none }, ERR_ABRT)
    else
      ({ st1 with pcb := none }, ERR_OK)

/-- tls_client_connected from tls_common.c.  e is the err_t delivered by the
connected callback, writeRes the oracle for the altcp_write result.  On a
connect failure or a write failure it closes; otherwise the handle is left
unchanged and ERR_OK is returned. -/
def tls_client_connected (closeRes writeRes e : Int) (st : TLS_CLIENT_T) : TLS_CLIENT_T × Int :=
  if e ≠ ERR_OK then
    tls_client_close closeRes st
  else if writeRes ≠ ERR_OK then
    tls_client_close closeRes st
  else
    (st, ERR_OK)

/-- tls_client_poll from tls_common.c: the idle-poll (timeout) callback.
Sets error to PICO_ERROR_TIMEOUT unconditionally, then closes. -/
def tls_client_poll (closeRes : Int) (st : TLS_CLIENT_T) : TLS_CLIENT_T × Int :=
  tls_client_close closeRes { st with error := PICO_ERROR_TIMEOUT }

/-- tls_client_err from tls_common.c: the fatal-error callback (void).  It
first closes, then sets error to PICO_ERROR_GENERIC; the err_t argument e is
only printed. -/
def tls_client_err (closeRes : Int) (_e : Int) (st : TLS_CLIENT_T) : TLS_CLIENT_T :=
  let st1 := (tls_client_close closeRes st).1
  { st1 with error := PICO_ERROR_GENERIC }

/-- One pbuf chunk delivered by the receive callback. -/
structure Pbuf where
  tot_len : Nat
  payload : List Char
deriving DecidableEq, Repr

/-- tls_client_recv from tls_common.c.  The function begins with the
variable-length array declaration char buf of size p tot_len plus one, which
dereferences p BEFORE the null check if (!p); delivering a null pbuf is
therefore a null-pointer dereference, modelled as none.  With a non-null
pbuf the data is copied out, printed and acknowledged, none of which changes
the handle, and ERR_OK is returned. -/
def tls_client_recv (st : TLS_CLIENT_T) (p : Option Pbuf) : Option (TLS_CLIENT_T × Int) :=
  match p with
  | none => none
  | some pb =>
    let _buf := pb.payload.take pb.tot_len
    some (st, ERR_OK)

/-- tls_client_connect_to_server_ip from tls_common.c (void).  The port is
the fixed literal 443; connectRes is the oracle for the altcp_connect
result.  On a connect-initiation failure the handle is closed. -/
def tls_client_connect_to_server_ip (closeRes connectRes : Int) (_ipaddr : Nat)
    (st : TLS_CLIENT_T) : TLS_CLIENT_T :=
  if connectRes ≠ ERR_OK then
    (tls_client_close closeRes st).1
  else
    st

/-- tls_client_dns_found from tls_common.c (void): the resolver callback.
With an address it proceeds to the connect call; with a null address it
closes the handle (no error code is assigned on this path). -/
def tls_client_dns_found (closeRes connectRes : Int) (ipaddr : Option Nat)
    (st : TLS_CLIENT_T) : TLS_CLIENT_T :=
  match ipaddr with
  | some a => tls_client_connect_to_server_ip closeRes connectRes a st
  | none => (tls_client_close closeRes st).1

/-- Oracle for the external calls made by tls_client_open and by the
operations it invokes synchronously: whether altcp_tls_new succeeds, the
dns_gethostbyname result, the cached address used when that result is
ERR_OK, the altcp_connect result of the synchronous connect path, and the
altcp_close result should close be reached. -/
structure OpenOracle where
  tlsNewOk : Bool
  dnsRes : Int
  dnsIp : Nat
  connectRes : Int
  closeRes : Int
deriving DecidableEq, Repr

/-- tls_client_open from tls_common.c.  Assigns the altcp_tls_new result to
the pcb field; if that is null it prints and returns false (no close call).
Otherwise it registers the argument and the poll (interval timeout times 2),
recv and err callbacks, then starts resolution: on ERR_OK the host was in
the DNS cache and the connect call is made at once; on any result other
than ERR_OK and ERR_INPROGRESS the source invokes tls_client_close on
state pcb — the pcb pointer, not the handle — so the handle itself is not
modified on that path.  Returns the updated handle and the boolean
err equals ERR_OK or err equals ERR_INPROGRESS. -/
def tls_client_open (o : OpenOracle) (_hostname : String) (st : TLS_CLIENT_T) :
    TLS_CLIENT_T × Bool :=
  if ¬ o.tlsNewOk then
    ({ st with pcb := none }, false)
  else
    let p : Pcb := { arg_set := true, poll_cb := true,
                     poll_interval := st.timeout * 2, recv_cb := true, err_cb := true }
    let st1 := { st with pcb := some p }
    if o.dnsRes = ERR_OK then
      (tls_client_connect_to_server_ip o.closeRes o.connectRes o.dnsIp st1, true)
    else if o.dnsRes = ERR_INPROGRESS then
      (st1, true)
    else
      (st1, false)

/-- tls_client_init from tls_common.c: calloc of one zero-initialised
TLS_CLIENT_T, or NULL when allocation fails. -/
def tls_client_init (allocOk : Bool) : Option TLS_CLIENT_T :=
  if allocOk then
    some { pcb := none, complete := false, error := 0, http_request := "", timeout := 0 }
  else
    none

/-- One asynchronous signal delivered to the handle by a pump of the event
loop, carrying the oracle results of the lwip calls its handler makes. -/
inductive Signal where
  | pollSig (closeRes : Int)
  | errSig (e closeRes : Int)
  | recvSig (p : Option Pbuf)
  | dnsSig (ipaddr : Option Nat) (closeRes connectRes : Int)
  | connSig (e writeRes closeRes : Int)
deriving DecidableEq, Repr

/-- Dispatch of one signal to the corresponding callback of tls_common.c.
none models a crash inside the handler. -/
def deliver (s : Signal) (st : TLS_CLIENT_T) : Option TLS_CLIENT_T :=
  match s with
  | .pollSig c => some (tls_client_poll c st).1
  | .errSig e c => some (tls_client_err c e st)
  | .recvSig p => (tls_client_recv st p).map Prod.fst
  | .dnsSig ip c k => some (tls_client_dns_found c k ip st)
  | .connSig e w c => some (tls_client_connected c w e st).1

/-- The driver's while loop: pump until the complete flag is observed true.
The signals delivered by successive pumps are consumed from the list; none
models an execution that crashes in a handler or never completes. -/
def eventLoop : List Signal → TLS_CLIENT_T → Option TLS_CLIENT_T
  | [], st => if st.complete then some st else none
  | s :: rest, st =>
    if st.complete then some st
    else (deliver s st).bind (eventLoop rest)

/-- run_tls_client_test from tls_common.c.  The source reads
state error into the local err immediately after tls_client_init and BEFORE
the null check if (!state); when allocation fails that read dereferences a
null pointer, modelled as none.  When allocation succeeds the snapshot err
is zero (calloc), the request and timeout are stored, open is called (false
propagates as the return value false), the loop pumps until complete, the
handle and the TLS configuration are freed, and err equals 0 — the snapshot
taken before the loop — is returned. -/
def run_tls_client_test (allocOk : Bool) (o : OpenOracle) (sigs : List Signal)
    (server request : String) (timeout : Int) : Option Bool :=
  match tls_client_init allocOk with
  | none => none
  | some st0 =>
    let err := st0.error
    let st1 := { st0 with http_request := request, timeout := timeout }
    let r := tls_client_open o server st1
    if ¬ r.2 then some false
    else
      match eventLoop sigs r.1 with
      | none => none
      | some _ => some (decide (err = 0))

/-- Environment of init_client from TLS_client/src/client.h: the result of
cyw43_arch_wifi_connect_timeout_ms on the i-th iteration of the retry loop
(nonzero means link establishment failed) and the result of
run_tls_client_test on the i-th iteration. -/
structure WifiEnv where
  wifi : Nat → Int
  test : Nat → Bool

/-- The retry loop of init_client: while retries is positive, try to connect
to Wi-Fi; on failure decrement retries and continue without running the TLS
test; on success run the test, breaking out of the loop if it passes and
decrementing retries if it fails.  Arguments: remaining retries, iteration
index, number of run_tls_client_test invocations so far.  Returns the final
retries value and the total number of test invocations. -/
def init_client_loop (env : WifiEnv) : Nat → Nat → Nat → Nat × Nat
  | 0, _, t => (0, t)
  | r + 1, i, t =>
    if env.wifi i ≠ 0 then init_client_loop env r (i + 1) t
    else if env.test i then (r + 1, t + 1)
    else init_client_loop env r (i + 1) (t + 1)

/-- init_client from TLS_client/src/client.h.  If cyw43_arch_init fails the
function returns at once (none).  Otherwise the retry loop starts with
retries equal to 3; afterwards the line Exceeded retry limit is printed
exactly when retries reached 0.  Returns the final retries value, the
number of run_tls_client_test invocations (each such invocation is the only
caller of tls_client_open), and whether the exceeded-retry-limit line was
printed. -/
def init_client (env : WifiEnv) (wifiInitOk : Bool) : Option (Nat × Nat × Bool) :=
  if ¬ wifiInitOk then none
  else
    let r := init_client_loop env 3 0 0
    some (r.1, r.2, decide (r.1 = 0))

/-- Value of a hexadecimal digit character, as strtol with base 16 accepts
it (0-9, a-f, A-F), or none for a non-digit. -/
def hex_val (c : Char) : Option Nat :=
  if ('0' ≤ c ∧ c ≤ '9') then some (c.toNat - 48)
  else if ('a' ≤ c ∧ c ≤ 'f') then some (c.toNat - 87)
  else if ('A' ≤ c ∧ c ≤ 'F') then some (c.toNat - 55)
  else none

/-- strtol(hex, NULL, 16) applied to the two-character string built from the
two bytes after a percent sign in url_decode: parse as many leading hex
digits as possible and return 0 when there is none.  (Leading whitespace or
sign forms of strtol do not change the values used by the theorems below.) -/
def strtol_hex2 (a b : Char) : Nat :=
  match hex_val a with
  | none => 0
  | some x =>
    match hex_val b with
    | none => x
    | some y => 16 * x + y

/-- url_decode from the server source: in-place percent-decoding over the
NUL-terminated string, modelled on the list of its characters.  A percent
sign followed by two further characters is replaced by the byte value
strtol yields for those two characters; any other character is copied. -/
def url_decode : List Char → List Char
  | '%' :: a :: b :: rest => Char.ofNat (strtol_hex2 a b) :: url_decode rest
  | c :: rest => c :: url_decode rest
  | [] => []

/-- TLS_CLIENT_SERVER literal of the client sources. -/
def TLS_CLIENT_SERVER : String := "10.42.0.1"

/-- MESSAGE literal of the client sources: the percent-encoded request body. -/
def MESSAGE : String := "hello%20world"

/-- MESSAGE_LEN literal of the client sources: the Content-Length header
value, written as a string. -/
def MESSAGE_LEN : String := "13"

/-- TLS_CLIENT_HTTP_REQUEST literal of the client sources: the fixed
transmitted request. -/
def TLS_CLIENT_HTTP_REQUEST : String :=
  "POST / HTTP/1.1\r\n" ++
  "Host: " ++ TLS_CLIENT_SERVER ++ "\r\n" ++
  "Connection: close\r\n" ++
  "Content-Type: application/x-www-form-urlencoded\r\n" ++
  "Content-Length: " ++ MESSAGE_LEN ++ "\r\n" ++
  "\r\n" ++
  MESSAGE

/-- Suffix of a character list after the first occurrence of a pattern, or
none when the pattern does not occur. -/
def find_after (pat : List Char) : List Char → Option (List Char)
  | [] => none
  | c :: rest =>
    if pat.isPrefixOf (c :: rest) then some ((c :: rest).drop pat.length)
    else find_after pat rest

/-- Characters before the first occurrence of a stop character. -/
def take_until (stop : Char) : List Char → List Char
  | [] => []
  | c :: rest => if c = stop then [] else c :: take_until stop rest

/-- The decimal value of a digit string. -/
def parse_dec (cs : List Char) : Nat :=
  cs.foldl (fun a c => 10 * a + (c.toNat - 48)) 0

/-- The numeric value declared by the Content-Length header of a request. -/
def content_length_value (req : List Char) : Option Nat :=
  (find_after ("Content-Length: ".data) req).map (fun s => parse_dec (take_until '\r' s))

/-- The body of a request: what follows the first blank line. -/
def body_of (req : List Char) : Option (List Char) :=
  find_after ("\r\n\r\n".data) req

/-- The handle invariant promised by the spec: once complete is true the
connection is null. -/
def HandleInv (st : TLS_CLIENT_T) : Prop := st.complete = true → st.pcb = none

instance (st : TLS_CLIENT_T) : Decidable (HandleInv st) := by
  unfold HandleInv; infer_instance

/-- Environment in which every link-establishment attempt fails. -/
def c8_env : WifiEnv := { wifi := fun _ => 1, test := fun _ => true }

/-- A pcb with all four callback slots registered, as tls_client_open leaves
it for a 15-second timeout. -/
def est_pcb : Pcb :=
  { arg_set := true, poll_cb := true, poll_interval := 30,
    recv_cb := true, err_cb := true }

/-- A handle in the established phase of an attempt: live connection,
complete still false, no error recorded. -/
def est_state : TLS_CLIENT_T :=
  { pcb := some est_pcb, complete := false, error := 0,
    http_request := "r", timeout := 15 }

/-- The handle est_state after the idle-poll fired: closed, with the
timeout error code recorded. -/
def timed_out_state : TLS_CLIENT_T :=
  { pcb := none, complete := true, error := PICO_ERROR_TIMEOUT,
    http_request := "r", timeout := 15 }

/-- Oracle of an attempt whose resolution is asynchronously in progress. -/
def c1_oracle : OpenOracle :=
  { tlsNewOk := true, dnsRes := ERR_INPROGRESS, dnsIp := 0,
    connectRes := ERR_OK, closeRes := ERR_OK }

/-- Oracle of an attempt in which altcp_tls_new fails. -/
def alloc_fail_oracle : OpenOracle :=
  { tlsNewOk := false, dnsRes := ERR_OK, dnsIp := 0,
    connectRes := ERR_OK, closeRes := ERR_OK }

/-- The fresh handle of an attempt, as run_tls_client_test builds it before
calling tls_client_open. -/
def fresh_state : TLS_CLIENT_T :=
  { pcb := none, complete := false, error := 0,
    http_request := "r", timeout := 15 }

/-- C9: url_decode applied to the encoded example body hello%20world yields
exactly the string hello world, inverting the percent-encoding of the fixed
request body. -/
theorem url_decode_inverts_encoded_body :
    url_decode MESSAGE.data = "hello world".data := by
  decide

/-- C10: in the fixed transmitted request literal, the numeric value
declared in the Content-Length header equals the byte length of the
percent-encoded body that follows the blank line: both are 13. -/
theorem content_length_matches_body_length :
    content_length_value TLS_CLIENT_HTTP_REQUEST.data = some 13 ∧
    body_of TLS_CLIENT_HTTP_REQUEST.data = some MESSAGE.data ∧
    MESSAGE.data.length = 13 := by
  refine ⟨by decide, by decide, by decide⟩

/-- C5 (code bug): delivering the received-data signal with a null chunk
crashes.  The source declares the variable-length array char buf of size
p tot_len plus one before the null check if (!p), so the clean-close branch
is never reached on a null pbuf: the handler dereferences the null pointer
for every handle state. -/
theorem recv_null_chunk_dereferences_null (st : TLS_CLIENT_T) :
    tls_client_recv st none = none := rfl

/-- C7 (code bug): when allocation of the secure connection handle fails,
run_tls_client_test does not report the failure directly — it reads
state error from the null handle before the null check if (!state), a null
dereference on every input. -/
theorem run_test_alloc_failure_dereferences_null (o : OpenOracle)
    (sigs : List Signal) (server request : String) (timeout : Int) :
    run_tls_client_test false o sigs server request timeout = none := rfl

/-- C8: when link establishment fails on the first 3 iterations of the
retry loop, init_client stops with the retry counter exhausted, prints the
exceeded-retry-limit line, and never invokes run_tls_client_test (hence
never invokes tls_client_open, whose only caller it is). -/
theorem three_wifi_failures_stop_without_open (env : WifiEnv)
    (h0 : env.wifi 0 ≠ 0) (h1 : env.wifi 1 ≠ 0) (h2 : env.wifi 2 ≠ 0) :
    init_client env true = some (0, 0, true) := by
  simp [init_client, init_client_loop, h0, h1, h2]

/-- Witness for C8 at a concrete environment. -/
theorem three_wifi_failures_stop_without_open_witness :
    init_client c8_env true = some (0, 0, true) :=
  three_wifi_failures_stop_without_open c8_env (by decide) (by decide) (by decide)

/-- Helper: the handle produced by tls_client_close has complete set and a
null pcb, with the other fields untouched, whatever the altcp_close oracle
returned. -/
lemma tls_client_close_fst (c : Int) (st : TLS_CLIENT_T) :
    (tls_client_close c st).1 = { st with complete := true, pcb := none } := by
  rcases st with ⟨p, cp, er, rq, tm⟩
  cases p with
  | none => rfl
  | some q =>
    by_cases hcl : c = ERR_OK
    · simp [tls_client_close, hcl]
    · simp [tls_client_close, hcl]

/-- C1 (code bug): an attempt whose open succeeded and whose idle-poll
timeout fired still returns success.  run_tls_client_test snapshots
state error into err before entering the event loop, so the TimedOut code
recorded on the handle at the moment the loop exits is ignored and
err equals 0 is returned. -/
theorem run_test_ignores_recorded_error :
    run_tls_client_test true c1_oracle [Signal.pollSig ERR_OK] "10.42.0.1" "r" 15
      = some true ∧
    eventLoop [Signal.pollSig ERR_OK] (tls_client_open c1_oracle "10.42.0.1" fresh_state).1
      = some timed_out_state ∧
    timed_out_state.error = PICO_ERROR_TIMEOUT ∧
    PICO_ERROR_TIMEOUT ≠ 0 := by
  decide

/-- C2 counterexample: the error field does not retain its first-written
value.  Starting from an established handle, the idle-poll signal records
PICO_ERROR_TIMEOUT and completes the attempt; a subsequent error signal,
arriving with complete already true, overwrites the field with
PICO_ERROR_GENERIC. -/
theorem second_error_signal_overwrites_error :
    (tls_client_poll ERR_OK est_state).1 = timed_out_state ∧
    timed_out_state.complete = true ∧
    (tls_client_err ERR_OK ERR_ABRT timed_out_state).error = PICO_ERROR_GENERIC ∧
    PICO_ERROR_GENERIC ≠ PICO_ERROR_TIMEOUT := by
  decide

/-- C2 amended: a second error or idle-poll signal delivered after complete
is already true and the connection already null is safe — the null pcb is
not freed again (close takes its null branch and only the error field and
the already-true complete flag are touched) and nothing crashes — but the
error field is overwritten each time: a late error signal leaves
PICO_ERROR_GENERIC and a late idle-poll leaves PICO_ERROR_TIMEOUT, so the
last writer wins rather than the first. -/
theorem late_signals_no_double_free_but_overwrite (c e : Int) (st : TLS_CLIENT_T)
    (hc : st.complete = true) (hp : st.pcb = none) :
    tls_client_err c e st = { st with error := PICO_ERROR_GENERIC } ∧
    tls_client_poll c st = ({ st with error := PICO_ERROR_TIMEOUT }, ERR_OK) := by
  rcases st with ⟨p, cp, er, rq, tm⟩
  have hc2 : cp = true := hc
  have hp2 : p = none := hp
  subst hc2; subst hp2
  constructor <;> rfl

/-- Witness for the C2 amended theorem at a concrete closed handle. -/
theorem late_signals_no_double_free_but_overwrite_witness :
    tls_client_err ERR_OK ERR_ABRT timed_out_state
        = { timed_out_state with error := PICO_ERROR_GENERIC } ∧
    tls_client_poll ERR_OK timed_out_state
        = ({ timed_out_state with error := PICO_ERROR_TIMEOUT }, ERR_OK) :=
  late_signals_no_double_free_but_overwrite ERR_OK ERR_ABRT timed_out_state rfl rfl

/-- Helper: any signal delivered to a not-yet-complete handle yields a
handle satisfying the spec invariant: if it completed, its connection is
null. -/
lemma deliver_inv (s : Signal) (st st2 : TLS_CLIENT_T) (hc : st.complete = false)
    (hd : deliver s st = some st2) : HandleInv st2 := by
  intro h2
  cases s with
  | pollSig c =>
    simp only [deliver, Option.some.injEq] at hd
    subst hd
    simp [tls_client_poll, tls_client_close_fst]
  | errSig e c =>
    simp only [deliver, Option.some.injEq] at hd
    subst hd
    simp [tls_client_err, tls_client_close_fst]
  | recvSig p =>
    cases p with
    | none => simp [deliver, tls_client_recv] at hd
    | some pb =>
      simp only [deliver, tls_client_recv, Option.map, Option.some.injEq] at hd
      subst hd
      rw [hc] at h2
      exact absurd h2 (by simp)
  | dnsSig ip c k =>
    cases ip with
    | none =>
      simp only [deliver, tls_client_dns_found, Option.some.injEq] at hd
      subst hd
      simp [tls_client_close_fst]
    | some a =>
      simp only [deliver, tls_client_dns_found, tls_client_connect_to_server_ip,
                 Option.some.injEq] at hd
      split at hd
      · subst hd; simp [tls_client_close_fst]
      · subst hd; rw [hc] at h2; exact absurd h2 (by simp)
  | connSig e w c =>
    simp only [deliver, tls_client_connected, Option.some.injEq] at hd
    split at hd
    · subst hd; simp [tls_client_close_fst]
    · split at hd
      · subst hd; simp [tls_client_close_fst]
      · subst hd; rw [hc] at h2; exact absurd h2 (by simp)

/-- Helper: tls_client_open applied to a not-yet-complete handle yields a
handle satisfying the spec invariant. -/
lemma open_inv (o : OpenOracle) (hn : String) (st : TLS_CLIENT_T)
    (hc : st.complete = false) : HandleInv (tls_client_open o hn st).1 := by
  intro h2
  by_cases ht : o.tlsNewOk
  · by_cases hd : o.dnsRes = ERR_OK
    · by_cases hcr : o.connectRes = ERR_OK
      · simp [tls_client_open, tls_client_connect_to_server_ip, ht, hd, hcr, hc] at h2
      · simp [tls_client_open, tls_client_connect_to_server_ip, ht, hd, hcr,
              tls_client_close_fst]
    · by_cases hip : o.dnsRes = ERR_INPROGRESS
      · simp [tls_client_open, ht, hd, hip, hc, ERR_INPROGRESS, ERR_OK] at h2
      · simp [tls_client_open, ht, hd, hip, hc] at h2
  · simp [tls_client_open, ht]

/-- C3: close is idempotent on the handle state — after one close the
handle has complete set and a null connection, and a second close returns
the very same handle with ERR_OK — and every operation that turns complete
from false to true leaves the connection null (the spec invariant holds
after any signal delivery and after open). -/
theorem close_idempotent_and_connection_null (c c2 : Int) (st st2 : TLS_CLIENT_T)
    (s : Signal) (o : OpenOracle) (hn : String)
    (hc : st.complete = false) (hd : deliver s st = some st2) :
    (tls_client_close c st).1.complete = true ∧
    (tls_client_close c st).1.pcb = none ∧
    tls_client_close c2 (tls_client_close c st).1 = ((tls_client_close c st).1, ERR_OK) ∧
    HandleInv st2 ∧
    HandleInv (tls_client_open o hn st).1 := by
  refine ⟨by rw [tls_client_close_fst], by rw [tls_client_close_fst], ?_,
          deliver_inv s st st2 hc hd, open_inv o hn st hc⟩
  rw [tls_client_close_fst]
  rfl

/-- Witness for C3 at a concrete established handle and idle-poll signal. -/
theorem close_idempotent_and_connection_null_witness :
    (tls_client_close ERR_OK est_state).1.complete = true ∧
    (tls_client_close ERR_OK est_state).1.pcb = none ∧
    tls_client_close ERR_OK (tls_client_close ERR_OK est_state).1
      = ((tls_client_close ERR_OK est_state).1, ERR_OK) ∧
    HandleInv timed_out_state ∧
    HandleInv (tls_client_open c1_oracle "10.42.0.1" est_state).1 :=
  close_idempotent_and_connection_null ERR_OK ERR_OK est_state timed_out_state
    (Signal.pollSig ERR_OK) c1_oracle "10.42.0.1" rfl (by decide)

/-- C4 counterexample: at an established handle, a resolution failure, a
connect failure and a write failure all complete the attempt with the error
field still 0 — the no-error value — so no nonzero error code is recorded
by these paths. -/
theorem state_machine_failures_record_no_error :
    (tls_client_dns_found ERR_OK ERR_OK none est_state).error = 0 ∧
    (tls_client_dns_found ERR_OK ERR_OK none est_state).complete = true ∧
    (tls_client_connected ERR_OK ERR_OK ERR_CONN est_state).1.error = 0 ∧
    (tls_client_connected ERR_OK ERR_CONN ERR_OK est_state).1.error = 0 ∧
    (tls_client_connected ERR_OK ERR_CONN ERR_OK est_state).1.complete = true := by
  decide

/-- C4 amended: a resolution failure (null address from the resolver), a
connect failure and a write failure each transition the handle to CLOSED
via tls_client_close, but none of them assigns an error code: the error
field is left unchanged, so these attempts complete with the no-error
value; only the idle-poll and error signals record nonzero codes. -/
theorem failures_close_without_recording_error (c k e w : Int) (st : TLS_CLIENT_T)
    (he : e ≠ ERR_OK) (hw : w ≠ ERR_OK) :
    tls_client_dns_found c k none st = { st with complete := true, pcb := none } ∧
    (tls_client_dns_found c k none st).error = st.error ∧
    tls_client_connected c w e st = tls_client_close c st ∧
    tls_client_connected c w ERR_OK st = tls_client_close c st ∧
    (tls_client_close c st).1.error = st.error := by
  refine ⟨by simp [tls_client_dns_found, tls_client_close_fst],
          by simp [tls_client_dns_found, tls_client_close_fst],
          by simp [tls_client_connected, he],
          by simp [tls_client_connected, hw],
          by simp [tls_client_close_fst]⟩

/-- Witness for the C4 amended theorem at a concrete established handle. -/
theorem failures_close_without_recording_error_witness :
    tls_client_dns_found ERR_OK ERR_OK none est_state
      = { est_state with complete := true, pcb := none } ∧
    (tls_client_dns_found ERR_OK ERR_OK none est_state).error = est_state.error ∧
    tls_client_connected ERR_OK ERR_CONN ERR_CONN est_state
      = tls_client_close ERR_OK est_state ∧
    tls_client_connected ERR_OK ERR_CONN ERR_OK est_state
      = tls_client_close ERR_OK est_state ∧
    (tls_client_close ERR_OK est_state).1.error = est_state.error :=
  failures_close_without_recording_error ERR_OK ERR_OK ERR_CONN ERR_CONN est_state
    (by decide) (by decide)

/-- C6 counterexample: when altcp_tls_new fails, tls_client_open returns
false but does not call tls_client_close on the handle: the handle comes
back with complete still false, whereas tls_client_close sets complete
unconditionally. -/
theorem open_alloc_failure_skips_close :
    tls_client_open alloc_fail_oracle "10.42.0.1" fresh_state = (fresh_state, false) ∧
    (tls_client_open alloc_fail_oracle "10.42.0.1" fresh_state).1.complete = false ∧
    (tls_client_close ERR_OK fresh_state).1.complete = true := by
  decide

/-- C6 amended: tls_client_open returns true exactly when the connection
object was allocated and resolution returned ERR_OK (cache hit, connect
initiated at once) or ERR_INPROGRESS; it returns false on an immediate
resolution error and on allocation failure, but on allocation failure it
does not call close on the handle — the handle completes only on the
synchronous connect-initiation failure path — and open itself never
records an error code. -/
theorem open_return_characterization (o : OpenOracle) (hn : String) (st : TLS_CLIENT_T) :
    ((tls_client_open o hn st).2
        = (o.tlsNewOk && (decide (o.dnsRes = ERR_OK) || decide (o.dnsRes = ERR_INPROGRESS)))) ∧
    ((tls_client_open o hn st).1.complete
        = (st.complete || (o.tlsNewOk && decide (o.dnsRes = ERR_OK)
                             && !(decide (o.connectRes = ERR_OK))))) ∧
    ((tls_client_open o hn st).1.error = st.error) := by
  by_cases ht : o.tlsNewOk
  · by_cases hd : o.dnsRes = ERR_OK
    · by_cases hcr : o.connectRes = ERR_OK
      · simp [tls_client_open, tls_client_connect_to_server_ip, ht, hd, hcr]
      · simp [tls_client_open, tls_client_connect_to_server_ip, ht, hd, hcr,
              tls_client_close_fst]
    · by_cases hip : o.dnsRes = ERR_INPROGRESS
      · simp [tls_client_open, ht, hd, hip, ERR_INPROGRESS, ERR_OK]
      · simp [tls_client_open, ht, hd, hip]
  · simp [tls_client_open, ht]
